import Mathlib

/-!
Shallow embedding of `paddlespeech/server/restful/tts_api.py`: the TTS REST
handlers (`tts_get`, `tts`, `stream_tts`, `get_samplerate`), their parameter
validation, engine dispatch, HTTP Range handling and response assembly.

Bytes are modelled as `List Nat`, Python floats as `ℚ`, Python ints as `Int`
(non-negative parse results as `Nat`).  The synthesis engine, the engine pool
and the exception machinery of modules outside `src/` are modelled as explicit
inputs/outcomes, following the spec where the repository code is not visible.
-/

namespace TTSApi

/-- Modelled from the spec: error codes from
`paddlespeech.server.utils.errors` (module not under src/).  Only the two
codes the visible handlers name are distinguished; engine-supplied classified
codes are represented by `other`. -/
inductive ErrorCode where
  | SERVER_PARAM_ERR
  | SERVER_UNKOWN_ERR
  | other (n : Nat)
deriving DecidableEq, Repr

/-- Modelled from the spec: the ErrorResponse shape
`{success:false, code:<ErrorCode>, message:{description}}` (§4.4); we keep the
code and the optional explicit message. -/
structure ErrorResponse where
  code : ErrorCode
  msg : Option String
deriving DecidableEq, Repr

/-- Modelled from the spec: `failed_response(code, msg)` from
`paddlespeech.server.utils.errors` (not under src/) builds the ErrorResponse
shape from the given code and message (default message when omitted). -/
def failed_response (code : ErrorCode) (msg : Option String) : ErrorResponse :=
  ⟨code, msg⟩

/-- Python exceptions relevant to the handlers: `ServerBaseException`
(classified, carries code and message), `SystemExit` (raised by `sys.exit`),
and any other `BaseException`. -/
inductive PyExc where
  | serverBase (code : ErrorCode) (msg : String)
  | systemExit (code : Int)
  | otherExc
deriving DecidableEq, Repr

deriving instance DecidableEq for Except

/-- Outcome of `PaddleTTSConnectionHandler(tts_engine).run(...)` for the
offline engines (an external collaborator): either the tuple
`(lang, target_sample_rate, duration, wav_base64)` or a raised exception. -/
inductive EngineResult where
  | ok (lang : String) (target_sample_rate : Int) (duration : ℚ) (wav_base64 : String)
  | raiseServerBase (code : ErrorCode) (msg : String)
  | raiseOther
deriving DecidableEq, Repr

/-- `base64.b64decode`: value of one base64 alphabet character. -/
def b64val (c : Char) : Option Nat :=
  if 65 ≤ c.toNat ∧ c.toNat ≤ 90 then some (c.toNat - 65)
  else if 97 ≤ c.toNat ∧ c.toNat ≤ 122 then some (c.toNat - 97 + 26)
  else if 48 ≤ c.toNat ∧ c.toNat ≤ 57 then some (c.toNat - 48 + 52)
  else if c = '+' then some 62
  else if c = '/' then some 63
  else none

/-- `base64.b64decode`: turn a run of sextet values into bytes, four sextets
to three bytes, with the usual truncation for a trailing group of two or
three sextets. -/
def b64groups : List Nat → List Nat
  | a :: b :: c :: d :: rest =>
      (a * 4 + b / 16) :: ((b % 16) * 16 + c / 4) :: ((c % 4) * 64 + d) :: b64groups rest
  | [a, b, c] => [a * 4 + b / 16, (b % 16) * 16 + c / 4]
  | [a, b] => [a * 4 + b / 16]
  | _ => []

/-- `base64.b64decode(s)`: non-alphabet characters (including the `=`
padding) are discarded, the sextets are packed into bytes. -/
def b64decode (s : String) : List Nat :=
  b64groups (s.data.filterMap b64val)

/-- `int(<digit string>)` on a list of decimal digit characters. -/
def parseDigits (l : List Char) : Nat :=
  l.foldl (fun a c => a * 10 + (c.toNat - 48)) 0

/-- `re.match(r'bytes=([0-9]+)\-(([0-9]+)?)', s)`: anchored at the start of
`s` only, trailing characters ignored.  Returns `(int(group1), end)` where
`end` is `none` when group 2 is empty (the code's `end = -1` sentinel). -/
def matchRange (s : String) : Option (Nat × Option Nat) :=
  let cs := s.data
  if cs.take 6 = "bytes=".data then
    let rest := cs.drop 6
    let g1 := rest.takeWhile Char.isDigit
    if g1.length > 0 then
      match rest.drop g1.length with
      | '-' :: rest3 =>
          let g2 := rest3.takeWhile Char.isDigit
          some (parseDigits g1, if g2.length > 0 then some (parseDigits g2) else none)
      | _ => none
    else none
  else none

/-- `"bytes %d-%d/%d" % (a, b, c)`. -/
def contentRangeValue (a b c : Int) : String :=
  "bytes " ++ toString a ++ "-" ++ toString b ++ "/" ++ toString c

/-- Lines 104-136 of `tts_get`: given the optional `Range` header and the
decoded bytes, produce `(status_code, headers, data_bytes)`.  `if range:` is
Python truthiness (absent or empty header both skip), a non-matching header
falls through unchanged, Python slices clamp. -/
def applyRange (range : Option String) (data : List Nat) :
    Nat × List (String × String) × List Nat :=
  match range with
  | none => (200, [], data)
  | some s =>
    if s = "" then (200, [], data)
    else
      match matchRange s with
      | none => (200, [], data)
      | some (start, endOpt) =>
        let size := data.length
        match endOpt with
        | none =>
          (206,
           [("Content-Length", toString ((size : Int) - (start : Int))),
            ("Accept-Ranges", "bytes"),
            ("Content-Range", contentRangeValue (start : Int) ((size : Int) - 1) (size : Int)),
            ("Connection", "keep-alive")],
           data.drop start)
        | some e =>
          (206,
           [("Content-Length", toString ((e : Int) - (start : Int) + 1)),
            ("Accept-Ranges", "bytes"),
            ("Content-Range", contentRangeValue (start : Int) (e : Int) (size : Int)),
            ("Connection", "keep-alive")],
           (data.take (e + 1)).drop start)

/-- Responses of the GET handler: either an `ErrorResponse` or a
`StreamingResponse(buf, status_code, headers, media_type)` over the (possibly
sliced) decoded bytes. -/
inductive Response where
  | error (e : ErrorResponse)
  | streaming (status_code : Nat) (headers : List (String × String))
      (body : List Nat) (media_type : String)
deriving DecidableEq, Repr

/-- The `result` object of the POST handler's success JSON. -/
structure TTSResult where
  lang : String
  spk_id : Int
  speed : ℚ
  volume : ℚ
  sample_rate : Int
  duration : ℚ
  save_path : Option String
  audio : String
deriving DecidableEq, Repr

/-- Responses of the POST handler: ErrorResponse or the success JSON
`{success:true, code:200, message:{description:"success."}, result:{...}}`,
of which we keep the `result` payload. -/
inductive PostResponse where
  | error (e : ErrorResponse)
  | ok (r : TTSResult)
deriving DecidableEq, Repr

/-- Lines 68-84 (and the identical lines 172-188): the four parameter checks,
in source order, each returning a `failed_response(SERVER_PARAM_ERR, msg)`;
`none` means all checks passed.  The source duplicates this block verbatim in
`tts_get` and `tts`. -/
def check_parameters (speed volume : ℚ) (sample_rate : Int)
    (save_path : Option String) : Option ErrorResponse :=
  if speed ≤ 0 ∨ speed > 3 then
    some (failed_response ErrorCode.SERVER_PARAM_ERR
      (some "invalid speed value, the value should be between 0 and 3."))
  else if volume ≤ 0 ∨ volume > 3 then
    some (failed_response ErrorCode.SERVER_PARAM_ERR
      (some "invalid volume value, the value should be between 0 and 3."))
  else if ¬ (sample_rate = 0 ∨ sample_rate = 16000 ∨ sample_rate = 8000) then
    some (failed_response ErrorCode.SERVER_PARAM_ERR
      (some "invalid sample_rate value, the choice of value is 0, 8000, 16000."))
  else
    match save_path with
    | some p =>
      if ¬ ("pcm".data.isSuffixOf p.data) ∧ ¬ ("wav".data.isSuffixOf p.data) then
        some (failed_response ErrorCode.SERVER_PARAM_ERR
          (some "invalid save_path, saved audio formats support pcm and wav"))
      else none
    | none => none

/-- The `try:` body of `tts_get` (lines 87-139): engine dispatch (with
`sys.exit(-1)` raising `SystemExit` for an unrecognized engine type), the
engine `run` call, base64 decoding and range handling. -/
def tts_get_try (engine_type : String) (res : EngineResult)
    (range : Option String) : Except PyExc Response :=
  if engine_type = "python" ∨ engine_type = "inference" then
    match res with
    | .raiseServerBase c m => .error (.serverBase c m)
    | .raiseOther => .error .otherExc
    | .ok _lang _tsr _dur wav =>
      let data := b64decode wav
      let r := applyRange range data
      .ok (.streaming r.1 r.2.1 r.2.2 "audio/wav")
  else .error (.systemExit (-1))

/-- `tts_get` (lines 58-146), the GET full-audio endpoint: validation, then
the `try:` body, with `except ServerBaseException` converting to that
exception's code and message and `except BaseException` (which also catches
the `SystemExit` of `sys.exit`) converting to `SERVER_UNKOWN_ERR`. -/
def tts_get (_text : String) (_spk_id : Int) (speed volume : ℚ)
    (sample_rate : Int) (save_path : Option String) (range : Option String)
    (engine_type : String) (res : EngineResult) : Response :=
  match check_parameters speed volume sample_rate save_path with
  | some e => .error e
  | none =>
    match tts_get_try engine_type res range with
    | .ok r => r
    | .error (.serverBase c m) => .error (failed_response c (some m))
    | .error _ => .error (failed_response ErrorCode.SERVER_UNKOWN_ERR none)

/-- The `try:` body of the POST handler `tts` (lines 191-225): same dispatch,
then the success JSON carrying the request's `spk_id`, `speed`, `volume`,
`save_path` and the engine's `lang`, `target_sample_rate`, `duration` and
base64 `audio`. -/
def tts_try (engine_type : String) (spk_id : Int) (speed volume : ℚ)
    (save_path : Option String) (res : EngineResult) :
    Except PyExc PostResponse :=
  if engine_type = "python" ∨ engine_type = "inference" then
    match res with
    | .raiseServerBase c m => .error (.serverBase c m)
    | .raiseOther => .error .otherExc
    | .ok lang tsr dur wav =>
      .ok (.ok ⟨lang, spk_id, speed, volume, tsr, dur, save_path, wav⟩)
  else .error (.systemExit (-1))

/-- `tts` (lines 149-232), the POST full-audio endpoint. -/
def tts (_text : String) (spk_id : Int) (speed volume : ℚ)
    (sample_rate : Int) (save_path : Option String)
    (engine_type : String) (res : EngineResult) : PostResponse :=
  match check_parameters speed volume sample_rate save_path with
  | some e => .error e
  | none =>
    match tts_try engine_type spk_id speed volume save_path res with
    | .ok r => r
    | .error (.serverBase c m) => .error (failed_response c (some m))
    | .error _ => .error (failed_response ErrorCode.SERVER_UNKOWN_ERR none)

/-- Outcome of the streaming engine's `run(sentence, spk_id)` (external
collaborator): a chunk sequence or a raised exception. -/
inductive StreamRun where
  | ok (chunks : List (List Nat))
  | raiseServerBase (code : ErrorCode) (msg : String)
  | raiseOther
deriving DecidableEq, Repr

/-- The streaming response body: the engine's chunk sequence. -/
structure StreamResponse where
  chunks : List (List Nat)
deriving DecidableEq, Repr

/-- `stream_tts` (lines 235-256), the streaming endpoint: no validation and
no `try/except`; an unrecognized engine type raises `SystemExit`, and any
exception of the engine call propagates unconverted. -/
def stream_tts (_text : String) (_spk_id : Int) (engine_type : String)
    (run : StreamRun) : Except PyExc StreamResponse :=
  if engine_type = "online" ∨ engine_type = "online-onnx" then
    match run with
    | .ok chunks => .ok ⟨chunks⟩
    | .raiseServerBase c m => .error (.serverBase c m)
    | .raiseOther => .error .otherExc
  else .error (.systemExit (-1))

/-- Outcome of reading `tts_engine.sample_rate` (external collaborator). -/
inductive SampleRateOutcome where
  | ok (sample_rate : Int)
  | raiseServerBase (code : ErrorCode) (msg : String)
  | raiseOther
deriving DecidableEq, Repr

/-- Responses of `get_samplerate`. -/
inductive SampleRateResponse where
  | error (e : ErrorResponse)
  | ok (sample_rate : Int)
deriving DecidableEq, Repr

/-- `get_samplerate` (lines 259-275): reads the engine's sample rate inside
the same `try/except` conversion as the offline endpoints. -/
def get_samplerate (res : SampleRateOutcome) : SampleRateResponse :=
  match res with
  | .ok sr => .ok sr
  | .raiseServerBase c m => .error (failed_response c (some m))
  | .raiseOther => .error (failed_response ErrorCode.SERVER_UNKOWN_ERR none)

/-- Body extractor for the GET response: the raw bytes served, when the
response is a streaming (binary) one. -/
def getBody : Response → Option (List Nat)
  | .streaming _ _ body _ => some body
  | .error _ => none

/-- Status extractor for the GET response. -/
def getStatus : Response → Option Nat
  | .streaming sc _ _ _ => some sc
  | .error _ => none

/-- Audio-field extractor for the POST response: the base64 `audio` string of
the success JSON. -/
def postAudio : PostResponse → Option String
  | .ok r => some r.audio
  | .error _ => none

/-- A header accepted by the range pattern is nonempty, so Python's
`if range:` truthiness test passes on it. -/
theorem matchRange_ne_empty {s : String} {r : Nat × Option Nat}
    (h : matchRange s = some r) : s ≠ "" := by
  intro he
  rw [he, (by decide : matchRange "" = none)] at h
  cases h



/-- Helper: the GET response on an open-ended matched range. -/
theorem rangeOpenResponse (text : String) (spk_id : Int) (speed volume : ℚ)
    (sample_rate : Int) (save_path : Option String) (engine_type : String)
    (lang : String) (tsr : Int) (dur : ℚ) (wav : String) (s : String)
    (start : Nat)
    (hok : check_parameters speed volume sample_rate save_path = none)
    (het : engine_type = "python" ∨ engine_type = "inference")
    (hm : matchRange s = some (start, none)) :
    tts_get text spk_id speed volume sample_rate save_path (some s)
      engine_type (.ok lang tsr dur wav) =
    .streaming 206
      [("Content-Length",
          toString (((b64decode wav).length : Int) - (start : Int))),
       ("Accept-Ranges", "bytes"),
       ("Content-Range",
          "bytes " ++ toString (start : Int) ++ "-" ++
            toString (((b64decode wav).length : Int) - 1) ++ "/" ++
            toString ((b64decode wav).length : Int)),
       ("Connection", "keep-alive")]
      ((b64decode wav).drop start) "audio/wav" := by
  have hs : s ≠ "" := matchRange_ne_empty hm
  rcases het with h | h <;> subst h <;>
    simp [tts_get, hok, tts_get_try, applyRange, hs, hm, contentRangeValue]

/-- C1: on the GET full-audio endpoint, a Range header matching
`bytes=<start>-` with empty end group, together with a successful engine call
decoding to `totalSize` bytes, yields status 206, body the slice
`[start, totalSize)`, Content-Length `totalSize - start`, Content-Range
`bytes <start>-<totalSize-1>/<totalSize>`, `Accept-Ranges: bytes` and
`Connection: keep-alive`. -/
theorem tts_get_range_open (text : String) (spk_id : Int) (speed volume : ℚ)
    (sample_rate : Int) (save_path : Option String) (engine_type : String)
    (lang : String) (tsr : Int) (dur : ℚ) (wav : String) (s : String)
    (start : Nat)
    (hok : check_parameters speed volume sample_rate save_path = none)
    (het : engine_type = "python" ∨ engine_type = "inference")
    (hm : matchRange s = some (start, none)) :
    tts_get text spk_id speed volume sample_rate save_path (some s)
      engine_type (.ok lang tsr dur wav) =
    .streaming 206
      [("Content-Length",
          toString (((b64decode wav).length : Int) - (start : Int))),
       ("Accept-Ranges", "bytes"),
       ("Content-Range",
          "bytes " ++ toString (start : Int) ++ "-" ++
            toString (((b64decode wav).length : Int) - 1) ++ "/" ++
            toString ((b64decode wav).length : Int)),
       ("Connection", "keep-alive")]
      ((b64decode wav).drop start) "audio/wav" :=
  rangeOpenResponse text spk_id speed volume sample_rate save_path
    engine_type lang tsr dur wav s start hok het hm

/-- Witness for C1 at a concrete request. -/
theorem tts_get_range_open_witness :
    tts_get "t" 0 1 1 0 none (some "bytes=2-") "python"
      (.ok "zh" 24000 1 "AAAAAAAA") =
    .streaming 206
      [("Content-Length", "4"), ("Accept-Ranges", "bytes"),
       ("Content-Range", "bytes 2-5/6"), ("Connection", "keep-alive")]
      [0, 0, 0, 0] "audio/wav" := by
  have h := tts_get_range_open "t" 0 1 1 0 none "python" "zh" 24000 1
    "AAAAAAAA" "bytes=2-" 2 (by decide) (Or.inl rfl) (by decide)
  rw [h]; decide

/-- Helper: the GET response on a matched range with both groups present. -/
theorem rangeClosedResponse (text : String) (spk_id : Int)
    (speed volume : ℚ) (sample_rate : Int) (save_path : Option String)
    (engine_type : String) (lang : String) (tsr : Int) (dur : ℚ)
    (wav : String) (s : String) (start endVal : Nat)
    (hok : check_parameters speed volume sample_rate save_path = none)
    (het : engine_type = "python" ∨ engine_type = "inference")
    (hm : matchRange s = some (start, some endVal)) :
    tts_get text spk_id speed volume sample_rate save_path (some s)
      engine_type (.ok lang tsr dur wav) =
    .streaming 206
      [("Content-Length",
          toString ((endVal : Int) - (start : Int) + 1)),
       ("Accept-Ranges", "bytes"),
       ("Content-Range",
          "bytes " ++ toString (start : Int) ++ "-" ++
            toString (endVal : Int) ++ "/" ++
            toString ((b64decode wav).length : Int)),
       ("Connection", "keep-alive")]
      (((b64decode wav).take (endVal + 1)).drop start) "audio/wav" := by
  have hs : s ≠ "" := matchRange_ne_empty hm
  rcases het with h | h <;> subst h <;>
    simp [tts_get, hok, tts_get_try, applyRange, hs, hm, contentRangeValue]

/-- C2: on the GET full-audio endpoint, a Range header matching
`bytes=<start>-<end>` with both digit groups present, together with a
successful engine call decoding to `totalSize` bytes, yields status 206,
body the inclusive slice `[start, end]`, Content-Length `end - start + 1`,
Content-Range `bytes <start>-<end>/<totalSize>`, `Accept-Ranges: bytes` and
`Connection: keep-alive`. -/
theorem tts_get_range_closed (text : String) (spk_id : Int)
    (speed volume : ℚ) (sample_rate : Int) (save_path : Option String)
    (engine_type : String) (lang : String) (tsr : Int) (dur : ℚ)
    (wav : String) (s : String) (start endVal : Nat)
    (hok : check_parameters speed volume sample_rate save_path = none)
    (het : engine_type = "python" ∨ engine_type = "inference")
    (hm : matchRange s = some (start, some endVal)) :
    tts_get text spk_id speed volume sample_rate save_path (some s)
      engine_type (.ok lang tsr dur wav) =
    .streaming 206
      [("Content-Length",
          toString ((endVal : Int) - (start : Int) + 1)),
       ("Accept-Ranges", "bytes"),
       ("Content-Range",
          "bytes " ++ toString (start : Int) ++ "-" ++
            toString (endVal : Int) ++ "/" ++
            toString ((b64decode wav).length : Int)),
       ("Connection", "keep-alive")]
      (((b64decode wav).take (endVal + 1)).drop start) "audio/wav" :=
  rangeClosedResponse text spk_id speed volume sample_rate save_path
    engine_type lang tsr dur wav s start endVal hok het hm

/-- Witness for C2 at a concrete request. -/
theorem tts_get_range_closed_witness :
    tts_get "t" 0 1 1 0 none (some "bytes=0-3") "python"
      (.ok "zh" 24000 1 "AAAAAAAA") =
    .streaming 206
      [("Content-Length", "4"), ("Accept-Ranges", "bytes"),
       ("Content-Range", "bytes 0-3/6"), ("Connection", "keep-alive")]
      [0, 0, 0, 0] "audio/wav" := by
  have h := tts_get_range_closed "t" 0 1 1 0 none "python" "zh" 24000 1
    "AAAAAAAA" "bytes=0-3" 0 3 (by decide) (Or.inl rfl) (by decide)
  rw [h]; decide

/-- Helper: the GET response when the Range header is absent or fails the
pattern. -/
theorem noRangeResponse (text : String) (spk_id : Int) (speed volume : ℚ)
    (sample_rate : Int) (save_path : Option String) (range : Option String)
    (engine_type : String) (lang : String) (tsr : Int) (dur : ℚ)
    (wav : String)
    (hok : check_parameters speed volume sample_rate save_path = none)
    (het : engine_type = "python" ∨ engine_type = "inference")
    (hnm : ∀ s, range = some s → matchRange s = none) :
    tts_get text spk_id speed volume sample_rate save_path range
      engine_type (.ok lang tsr dur wav) =
    .streaming 200 [] (b64decode wav) "audio/wav" := by
  rcases het with h | h <;> subst h <;>
    cases range with
    | none => simp [tts_get, hok, tts_get_try, applyRange]
    | some s =>
      by_cases hs : s = "" <;>
        simp [tts_get, hok, tts_get_try, applyRange, hs, hnm s rfl]

/-- C4: on the GET full-audio endpoint with a successful engine call, an
absent Range header, or a present one that does not match
`bytes=<digits>-<digits?>`, yields status 200, the entire decoded buffer as
body, and no added headers. -/
theorem tts_get_no_range (text : String) (spk_id : Int) (speed volume : ℚ)
    (sample_rate : Int) (save_path : Option String) (range : Option String)
    (engine_type : String) (lang : String) (tsr : Int) (dur : ℚ)
    (wav : String)
    (hok : check_parameters speed volume sample_rate save_path = none)
    (het : engine_type = "python" ∨ engine_type = "inference")
    (hnm : ∀ s, range = some s → matchRange s = none) :
    tts_get text spk_id speed volume sample_rate save_path range
      engine_type (.ok lang tsr dur wav) =
    .streaming 200 [] (b64decode wav) "audio/wav" :=
  noRangeResponse text spk_id speed volume sample_rate save_path range
    engine_type lang tsr dur wav hok het hnm

/-- Witness for C4 at a concrete request with a non-matching header. -/
theorem tts_get_no_range_witness :
    tts_get "t" 0 1 1 0 none (some "bytes=abc") "python"
      (.ok "zh" 24000 1 "AAAAAAAA") =
    .streaming 200 [] [0, 0, 0, 0, 0, 0] "audio/wav" := by
  have h := tts_get_no_range "t" 0 1 1 0 none (some "bytes=abc") "python"
    "zh" 24000 1 "AAAAAAAA" (by decide) (Or.inl rfl)
    (fun s hs => by cases hs; decide)
  rw [h]; decide

/-- The speed-check failure response (lines 69-71). -/
def speedError : ErrorResponse :=
  ⟨ErrorCode.SERVER_PARAM_ERR,
    some "invalid speed value, the value should be between 0 and 3."⟩

/-- The volume-check failure response (lines 73-75). -/
def volumeError : ErrorResponse :=
  ⟨ErrorCode.SERVER_PARAM_ERR,
    some "invalid volume value, the value should be between 0 and 3."⟩

/-- The sample-rate-check failure response (lines 77-79). -/
def sampleRateError : ErrorResponse :=
  ⟨ErrorCode.SERVER_PARAM_ERR,
    some "invalid sample_rate value, the choice of value is 0, 8000, 16000."⟩

/-- The save-path-check failure response (lines 82-84). -/
def savePathError : ErrorResponse :=
  ⟨ErrorCode.SERVER_PARAM_ERR,
    some "invalid save_path, saved audio formats support pcm and wav"⟩

/-- C3: on both the GET and POST full-audio endpoints, validation checks
speed, volume, sample_rate and save_path in this order, short-circuiting on
the first failure, each failure producing the ParamError response with the
designated message; speed 3 is accepted and speed 0 rejected; sample rates
0, 8000, 16000 are accepted and all others rejected; absent save_path is
accepted; and both endpoints return the validator's error as the response. -/
theorem check_parameters_order :
    (∀ (sp vol : ℚ) (sr : Int) (sv : Option String), (sp ≤ 0 ∨ 3 < sp) →
        check_parameters sp vol sr sv = some speedError)
  ∧ (∀ (sp vol : ℚ) (sr : Int) (sv : Option String),
        0 < sp → sp ≤ 3 → (vol ≤ 0 ∨ 3 < vol) →
        check_parameters sp vol sr sv = some volumeError)
  ∧ (∀ (sp vol : ℚ) (sr : Int) (sv : Option String),
        0 < sp → sp ≤ 3 → 0 < vol → vol ≤ 3 →
        ¬ (sr = 0 ∨ sr = 16000 ∨ sr = 8000) →
        check_parameters sp vol sr sv = some sampleRateError)
  ∧ (∀ (sp vol : ℚ) (sr : Int) (p : String),
        0 < sp → sp ≤ 3 → 0 < vol → vol ≤ 3 →
        (sr = 0 ∨ sr = 16000 ∨ sr = 8000) →
        ¬ ("pcm".data.isSuffixOf p.data) → ¬ ("wav".data.isSuffixOf p.data) →
        check_parameters sp vol sr (some p) = some savePathError)
  ∧ (∀ (sp vol : ℚ) (sr : Int),
        0 < sp → sp ≤ 3 → 0 < vol → vol ≤ 3 →
        (sr = 0 ∨ sr = 16000 ∨ sr = 8000) →
        check_parameters sp vol sr none = none)
  ∧ check_parameters 3 1 0 none = none
  ∧ check_parameters 0 1 0 none = some speedError
  ∧ check_parameters 1 1 0 none = none
  ∧ check_parameters 1 1 8000 none = none
  ∧ check_parameters 1 1 16000 none = none
  ∧ (∀ sr : Int, ¬ (sr = 0 ∨ sr = 16000 ∨ sr = 8000) →
        check_parameters 1 1 sr none = some sampleRateError)
  ∧ (∀ text spk_id (sp vol : ℚ) sr sv range et res e,
        check_parameters sp vol sr sv = some e →
        tts_get text spk_id sp vol sr sv range et res = .error e)
  ∧ (∀ text spk_id (sp vol : ℚ) sr sv et res e,
        check_parameters sp vol sr sv = some e →
        tts text spk_id sp vol sr sv et res = .error e) := by
  refine ⟨?_, ?_, ?_, ?_, ?_, by decide, by decide, by decide, by decide,
    by decide, ?_, ?_, ?_⟩
  · intro sp vol sr sv h
    simp only [check_parameters, failed_response]
    rw [if_pos h]
    rfl
  · intro sp vol sr sv h1 h2 h
    simp only [check_parameters, failed_response]
    rw [if_neg (by push_neg; exact ⟨h1, h2⟩), if_pos h]
    rfl
  · intro sp vol sr sv h1 h2 h3 h4 h
    simp only [check_parameters, failed_response]
    rw [if_neg (by push_neg; exact ⟨h1, h2⟩),
      if_neg (by push_neg; exact ⟨h3, h4⟩), if_pos h]
    rfl
  · intro sp vol sr p h1 h2 h3 h4 h5 h6 h7
    simp only [check_parameters, failed_response]
    rw [if_neg (by push_neg; exact ⟨h1, h2⟩),
      if_neg (by push_neg; exact ⟨h3, h4⟩), if_neg (not_not_intro h5),
      if_pos ⟨h6, h7⟩]
    rfl
  · intro sp vol sr h1 h2 h3 h4 h5
    simp only [check_parameters, failed_response]
    rw [if_neg (by push_neg; exact ⟨h1, h2⟩),
      if_neg (by push_neg; exact ⟨h3, h4⟩), if_neg (not_not_intro h5)]
  · intro sr h
    simp only [check_parameters, failed_response]
    rw [if_neg (by norm_num), if_neg (by norm_num), if_pos h]
    rfl
  · intro text spk_id sp vol sr sv range et res e h
    simp [tts_get, h]
  · intro text spk_id sp vol sr sv et res e h
    simp [tts, h]

/-- Witness for C3: the speed check fires first on a request where every
later check would also fail. -/
theorem check_parameters_order_witness :
    check_parameters 0 0 3 (some "x.mp3") = some speedError := by
  have h := check_parameters_order.1 0 0 3 (some "x.mp3") (Or.inl (by decide))
  exact h

/-- C7 counterexample: `save_path = "apcm"` does not end in ".pcm" or ".wav"
(dot included), yet validation accepts it, because the code only tests the
dotless suffixes "pcm" and "wav". -/
theorem save_path_dotless_cex :
    (".pcm".data.isSuffixOf "apcm".data = false)
  ∧ (".wav".data.isSuffixOf "apcm".data = false)
  ∧ check_parameters 1 1 0 (some "apcm") = none := by decide

/-- C7 (amended): a present save_path is accepted iff it ends in "pcm" or
"wav" (no dot required); every other present value is rejected with the
ParamError message "invalid save_path, saved audio formats support pcm and
wav". -/
theorem save_path_suffix_amended (sp vol : ℚ) (sr : Int) (p : String)
    (h1 : 0 < sp) (h2 : sp ≤ 3) (h3 : 0 < vol) (h4 : vol ≤ 3)
    (h5 : sr = 0 ∨ sr = 16000 ∨ sr = 8000) :
    (check_parameters sp vol sr (some p) = none ↔
      ("pcm".data.isSuffixOf p.data ∨ "wav".data.isSuffixOf p.data))
  ∧ (¬ ("pcm".data.isSuffixOf p.data) → ¬ ("wav".data.isSuffixOf p.data) →
      check_parameters sp vol sr (some p) = some savePathError) := by
  have hbase : ∀ r : Option ErrorResponse,
      check_parameters sp vol sr (some p) = r ↔
      (if ¬ ("pcm".data.isSuffixOf p.data) ∧ ¬ ("wav".data.isSuffixOf p.data)
        then some savePathError else none) = r := by
    intro r
    simp only [check_parameters, failed_response]
    rw [if_neg (by push_neg; exact ⟨h1, h2⟩),
      if_neg (by push_neg; exact ⟨h3, h4⟩), if_neg (not_not_intro h5)]
    exact Iff.rfl
  constructor
  · rw [hbase none]
    by_cases ha : ("pcm".data.isSuffixOf p.data : Prop) <;>
      by_cases hb : ("wav".data.isSuffixOf p.data : Prop) <;>
        simp [ha, hb]
  · intro h6 h7
    rw [hbase (some savePathError), if_pos ⟨h6, h7⟩]

/-- Witness for C7's amended theorem: "a.wav" is accepted. -/
theorem save_path_suffix_amended_witness :
    check_parameters 1 1 0 (some "a.wav") = none := by
  have h := (save_path_suffix_amended 1 1 0 "a.wav" (by decide) (by decide)
    (by decide) (by decide) (Or.inl rfl)).1.mpr (Or.inr (by decide))
  exact h

/-- C5 counterexample: on the streaming endpoint there is no `try/except`
conversion at all: an exception raised around the engine call propagates
unconverted (it never becomes an ErrorResponse), refuting "for every
endpoint, every failure raised during engine invocation is converted to an
ErrorResponse before reaching the wire". -/
theorem stream_tts_no_conversion_cex :
    stream_tts "t" 0 "online" (.raiseServerBase (.other 5) "boom") =
      Except.error (PyExc.serverBase (.other 5) "boom")
  ∧ stream_tts "t" 0 "online" .raiseOther = Except.error PyExc.otherExc := by
  decide

/-- C5 (amended): on the GET and POST full-audio endpoints and the
samplerate endpoint, a classified engine exception becomes an ErrorResponse
with that exception's code and message, any other exception becomes an
ErrorResponse with the generic unknown-error code, and a validation failure
returns before any engine call (the response does not depend on the engine
outcome); the streaming endpoint performs no such conversion — its failures
propagate unconverted. -/
theorem error_conversion_amended :
    (∀ text spk_id (sp vol : ℚ) sr sv range et c m,
        check_parameters sp vol sr sv = none →
        (et = "python" ∨ et = "inference") →
        tts_get text spk_id sp vol sr sv range et (.raiseServerBase c m) =
          .error ⟨c, some m⟩)
  ∧ (∀ text spk_id (sp vol : ℚ) sr sv range et,
        check_parameters sp vol sr sv = none →
        (et = "python" ∨ et = "inference") →
        tts_get text spk_id sp vol sr sv range et .raiseOther =
          .error ⟨ErrorCode.SERVER_UNKOWN_ERR, none⟩)
  ∧ (∀ text spk_id (sp vol : ℚ) sr sv et c m,
        check_parameters sp vol sr sv = none →
        (et = "python" ∨ et = "inference") →
        tts text spk_id sp vol sr sv et (.raiseServerBase c m) =
          .error ⟨c, some m⟩)
  ∧ (∀ text spk_id (sp vol : ℚ) sr sv et,
        check_parameters sp vol sr sv = none →
        (et = "python" ∨ et = "inference") →
        tts text spk_id sp vol sr sv et .raiseOther =
          .error ⟨ErrorCode.SERVER_UNKOWN_ERR, none⟩)
  ∧ (∀ c m, get_samplerate (.raiseServerBase c m) = .error ⟨c, some m⟩)
  ∧ get_samplerate .raiseOther = .error ⟨ErrorCode.SERVER_UNKOWN_ERR, none⟩
  ∧ (∀ text spk_id (sp vol : ℚ) sr sv range et res res2 e,
        check_parameters sp vol sr sv = some e →
        tts_get text spk_id sp vol sr sv range et res = .error e ∧
        tts_get text spk_id sp vol sr sv range et res =
          tts_get text spk_id sp vol sr sv range et res2)
  ∧ (∀ text spk_id (sp vol : ℚ) sr sv et res res2 e,
        check_parameters sp vol sr sv = some e →
        tts text spk_id sp vol sr sv et res = .error e ∧
        tts text spk_id sp vol sr sv et res =
          tts text spk_id sp vol sr sv et res2)
  ∧ (∀ text spk_id et c m, (et = "online" ∨ et = "online-onnx") →
        stream_tts text spk_id et (.raiseServerBase c m) =
          Except.error (.serverBase c m) ∧
        stream_tts text spk_id et .raiseOther = Except.error .otherExc) := by
  refine ⟨?_, ?_, ?_, ?_, fun c m => rfl, rfl, ?_, ?_, ?_⟩
  · intro text spk_id sp vol sr sv range et c m hok het
    rcases het with h | h <;> subst h <;>
      simp [tts_get, hok, tts_get_try, failed_response]
  · intro text spk_id sp vol sr sv range et hok het
    rcases het with h | h <;> subst h <;>
      simp [tts_get, hok, tts_get_try, failed_response]
  · intro text spk_id sp vol sr sv et c m hok het
    rcases het with h | h <;> subst h <;>
      simp [tts, hok, tts_try, failed_response]
  · intro text spk_id sp vol sr sv et hok het
    rcases het with h | h <;> subst h <;>
      simp [tts, hok, tts_try, failed_response]
  · intro text spk_id sp vol sr sv range et res res2 e h
    exact ⟨by simp [tts_get, h], by simp [tts_get, h]⟩
  · intro text spk_id sp vol sr sv et res res2 e h
    exact ⟨by simp [tts, h], by simp [tts, h]⟩
  · intro text spk_id et c m het
    rcases het with h | h <;> subst h <;> exact ⟨rfl, rfl⟩

/-- Witness for C5's amended theorem: a classified engine exception on the
GET endpoint surfaces with its own code and message. -/
theorem error_conversion_amended_witness :
    tts_get "t" 0 1 1 0 none none "python" (.raiseServerBase (.other 7) "engine boom") =
      .error ⟨ErrorCode.other 7, some "engine boom"⟩ := by
  have h := error_conversion_amended.1 "t" 0 1 1 0 none none "python"
    (.other 7) "engine boom" (by decide) (Or.inl rfl)
  exact h

/-- C6: on the offline full-audio endpoints an unrecognized engine type does
cause `sys.exit(-1)` inside the `try:` body (third conjunct), but the raised
`SystemExit` is a `BaseException`, so the blanket `except BaseException:`
converts it to a generic unknown-error ErrorResponse instead of terminating
the process (first two conjuncts) — the request never silently succeeds, but
the process does not terminate as the claim states.  Only the streaming
endpoint, which has no `try/except`, lets the `SystemExit` propagate (last
conjunct). -/
theorem offline_unrecognized_engine_no_exit :
    tts_get "t" 0 1 1 0 none none "online" (.ok "zh" 0 1 "AAAA") =
      .error ⟨ErrorCode.SERVER_UNKOWN_ERR, none⟩
  ∧ tts "t" 0 1 1 0 none "online" (.ok "zh" 0 1 "AAAA") =
      .error ⟨ErrorCode.SERVER_UNKOWN_ERR, none⟩
  ∧ tts_get_try "online" (.ok "zh" 0 1 "AAAA") none =
      Except.error (PyExc.systemExit (-1))
  ∧ stream_tts "t" 0 "python" (.ok []) =
      Except.error (PyExc.systemExit (-1)) := by decide

/-- C8: the GET range handling performs no bounds validation: a matched
range whose start or end is at or beyond the buffer size still yields a 206
streaming response whose body is the Python-clamped (possibly empty) slice
and whose headers are computed arithmetically (Content-Length is the string
of `totalSize - start`, an `Int` that may be negative, or of
`end - start + 1`); no error response is produced. -/
theorem tts_get_range_no_bounds_check (text : String) (spk_id : Int)
    (speed volume : ℚ) (sample_rate : Int) (save_path : Option String)
    (engine_type : String) (lang : String) (tsr : Int) (dur : ℚ)
    (wav : String) (s : String) (start : Nat) (endOpt : Option Nat)
    (hok : check_parameters speed volume sample_rate save_path = none)
    (het : engine_type = "python" ∨ engine_type = "inference")
    (hm : matchRange s = some (start, endOpt))
    (hout : (b64decode wav).length ≤ start ∨
      ∃ e, endOpt = some e ∧ (b64decode wav).length ≤ e) :
    tts_get text spk_id speed volume sample_rate save_path (some s)
      engine_type (.ok lang tsr dur wav) =
      (match endOpt with
       | none =>
         .streaming 206
           [("Content-Length",
               toString (((b64decode wav).length : Int) - (start : Int))),
            ("Accept-Ranges", "bytes"),
            ("Content-Range",
               "bytes " ++ toString (start : Int) ++ "-" ++
                 toString (((b64decode wav).length : Int) - 1) ++ "/" ++
                 toString ((b64decode wav).length : Int)),
            ("Connection", "keep-alive")]
           ((b64decode wav).drop start) "audio/wav"
       | some e =>
         .streaming 206
           [("Content-Length", toString ((e : Int) - (start : Int) + 1)),
            ("Accept-Ranges", "bytes"),
            ("Content-Range",
               "bytes " ++ toString (start : Int) ++ "-" ++
                 toString (e : Int) ++ "/" ++
                 toString ((b64decode wav).length : Int)),
            ("Connection", "keep-alive")]
           (((b64decode wav).take (e + 1)).drop start) "audio/wav")
  ∧ getStatus (tts_get text spk_id speed volume sample_rate save_path
      (some s) engine_type (.ok lang tsr dur wav)) = some 206 := by
  have hs : s ≠ "" := matchRange_ne_empty hm
  cases endOpt with
  | none =>
    have h := rangeOpenResponse text spk_id speed volume sample_rate
      save_path engine_type lang tsr dur wav s start hok het hm
    exact ⟨h, by rw [h]; rfl⟩
  | some e =>
    have h := rangeClosedResponse text spk_id speed volume sample_rate
      save_path engine_type lang tsr dur wav s start e hok het hm
    exact ⟨h, by rw [h]; rfl⟩

/-- Witness for C8: `bytes=150-` against a 6-byte buffer still gets a 206
with an empty body and a negative Content-Length of "-144". -/
theorem tts_get_range_no_bounds_check_witness :
    tts_get "t" 0 1 1 0 none (some "bytes=150-") "python"
      (.ok "zh" 24000 1 "AAAAAAAA") =
    .streaming 206
      [("Content-Length", "-144"), ("Accept-Ranges", "bytes"),
       ("Content-Range", "bytes 150-5/6"), ("Connection", "keep-alive")]
      [] "audio/wav" := by
  have h := (tts_get_range_no_bounds_check "t" 0 1 1 0 none "python" "zh"
    24000 1 "AAAAAAAA" "bytes=150-" 150 none (by decide) (Or.inl rfl)
    (by decide) (Or.inl (by decide))).1
  rw [h]; decide

/-- C9: for identical parameters and identical engine output, the raw body
served by the GET endpoint with no Range header is byte-identical to the
base64-decoding of the `audio` field of the POST endpoint's JSON result. -/
theorem get_post_round_trip (text : String) (spk_id : Int)
    (speed volume : ℚ) (sample_rate : Int) (save_path : Option String)
    (engine_type : String) (lang : String) (tsr : Int) (dur : ℚ)
    (wav : String)
    (hok : check_parameters speed volume sample_rate save_path = none)
    (het : engine_type = "python" ∨ engine_type = "inference") :
    getBody (tts_get text spk_id speed volume sample_rate save_path none
        engine_type (.ok lang tsr dur wav)) = some (b64decode wav)
  ∧ postAudio (tts text spk_id speed volume sample_rate save_path
        engine_type (.ok lang tsr dur wav)) = some wav
  ∧ Option.map b64decode (postAudio (tts text spk_id speed volume
        sample_rate save_path engine_type (.ok lang tsr dur wav))) =
      getBody (tts_get text spk_id speed volume sample_rate save_path none
        engine_type (.ok lang tsr dur wav)) := by
  have hget := noRangeResponse text spk_id speed volume sample_rate
    save_path none engine_type lang tsr dur wav hok het
    (fun s hs => by cases hs)
  have hpost : tts text spk_id speed volume sample_rate save_path
      engine_type (.ok lang tsr dur wav) =
      .ok ⟨lang, spk_id, speed, volume, tsr, dur, save_path, wav⟩ := by
    rcases het with h | h <;> subst h <;> simp [tts, hok, tts_try]
  rw [hget, hpost]
  exact ⟨rfl, rfl, rfl⟩

/-- Witness for C9 at a concrete request and engine output. -/
theorem get_post_round_trip_witness :
    Option.map b64decode (postAudio (tts "t" 0 1 1 0 none "python"
        (.ok "zh" 24000 1 "QUJD"))) =
      getBody (tts_get "t" 0 1 1 0 none none "python"
        (.ok "zh" 24000 1 "QUJD"))
  ∧ getBody (tts_get "t" 0 1 1 0 none none "python"
        (.ok "zh" 24000 1 "QUJD")) = some [65, 66, 67] := by
  have h := get_post_round_trip "t" 0 1 1 0 none "python" "zh" 24000 1
    "QUJD" (by decide) (Or.inl rfl)
  exact ⟨h.2.2, h.1.trans (by decide)⟩

/-- Helper: `takeWhile` passes over a block of elements that all satisfy the
predicate. -/
theorem takeWhile_append_all {α : Type} (p : α → Bool) (l r : List α)
    (h : ∀ c ∈ l, p c) : (l ++ r).takeWhile p = l ++ r.takeWhile p := by
  induction l with
  | nil => simp
  | cons a t ih =>
    simp only [List.cons_append, List.takeWhile_cons,
      h a (List.mem_cons_self a t), if_true]
    rw [ih (fun c hc => h c (List.mem_cons_of_mem a hc))]

/-- Helper: the range pattern is anchored only at the start: a header built
as `bytes=` + digits + `-` + digits + arbitrary non-digit-led trailing
characters matches, and the groups are the two digit runs. -/
theorem matchRange_append (g1 g2 tail : List Char)
    (h1 : g1 ≠ []) (h1d : ∀ c ∈ g1, c.isDigit)
    (h2d : ∀ c ∈ g2, c.isDigit)
    (ht : tail.takeWhile Char.isDigit = []) :
    matchRange ⟨"bytes=".data ++ (g1 ++ '-' :: (g2 ++ tail))⟩ =
      some (parseDigits g1,
        if g2 = [] then none else some (parseDigits g2)) := by
  have e1 : ("bytes=".data ++ (g1 ++ '-' :: (g2 ++ tail))).take 6 =
      "bytes=".data := by
    rw [show 6 = ("bytes=".data).length from rfl, List.take_left]
  have e2 : ("bytes=".data ++ (g1 ++ '-' :: (g2 ++ tail))).drop 6 =
      g1 ++ '-' :: (g2 ++ tail) := by
    rw [show 6 = ("bytes=".data).length from rfl, List.drop_left]
  have e3 : (g1 ++ '-' :: (g2 ++ tail)).takeWhile Char.isDigit = g1 := by
    rw [takeWhile_append_all _ _ _ h1d]
    simp [List.takeWhile_cons]
  have e4 : (g1 ++ '-' :: (g2 ++ tail)).drop g1.length =
      '-' :: (g2 ++ tail) := List.drop_left _ _
  have e5 : (g2 ++ tail).takeWhile Char.isDigit = g2 := by
    rw [takeWhile_append_all _ _ _ h2d, ht, List.append_nil]
  have hlen : g1.length > 0 := List.length_pos.mpr h1
  simp only [matchRange]
  rw [show (['b', 'y', 't', 'e', 's', '='] : List Char) = "bytes=".data
    from rfl]
  simp only [e1, e2, e3, e4, e5, hlen, if_true, eq_self_iff_true]
  cases g2 with
  | nil => simp
  | cons a t => simp

/-- C10: range matching is anchored only at the start of the header: every
header of the form `bytes=<digits>-<digits?>` followed by arbitrary trailing
characters (not extending the digit runs), such as "bytes=10-20,30-40" or
"bytes=10-20junk", is treated as the single range given by the first two
digit groups, and the GET handler answers 206 rather than treating the
header as absent. -/
theorem tts_get_prefix_anchored_range (g1 g2 tail : List Char)
    (text : String) (spk_id : Int) (speed volume : ℚ) (sample_rate : Int)
    (save_path : Option String) (engine_type : String) (lang : String)
    (tsr : Int) (dur : ℚ) (wav : String)
    (h1 : g1 ≠ []) (h1d : ∀ c ∈ g1, c.isDigit)
    (h2d : ∀ c ∈ g2, c.isDigit)
    (ht : tail.takeWhile Char.isDigit = [])
    (hok : check_parameters speed volume sample_rate save_path = none)
    (het : engine_type = "python" ∨ engine_type = "inference") :
    matchRange ⟨"bytes=".data ++ (g1 ++ '-' :: (g2 ++ tail))⟩ =
      some (parseDigits g1,
        if g2 = [] then none else some (parseDigits g2))
  ∧ getStatus (tts_get text spk_id speed volume sample_rate save_path
      (some ⟨"bytes=".data ++ (g1 ++ '-' :: (g2 ++ tail))⟩) engine_type
      (.ok lang tsr dur wav)) = some 206 := by
  have hm := matchRange_append g1 g2 tail h1 h1d h2d ht
  refine ⟨hm, ?_⟩
  by_cases hg : g2 = []
  · rw [if_pos hg] at hm
    have h := rangeOpenResponse text spk_id speed volume sample_rate
      save_path engine_type lang tsr dur wav _ _ hok het hm
    rw [h]; rfl
  · rw [if_neg hg] at hm
    have h := rangeClosedResponse text spk_id speed volume sample_rate
      save_path engine_type lang tsr dur wav _ _ _ hok het hm
    rw [h]; rfl

/-- Witness for C10 on the multi-range-looking header "bytes=10-20,30-40". -/
theorem tts_get_prefix_anchored_range_witness :
    matchRange "bytes=10-20,30-40" = some (10, some 20)
  ∧ getStatus (tts_get "t" 0 1 1 0 none (some "bytes=10-20,30-40") "python"
      (.ok "zh" 24000 1 "AAAAAAAA")) = some 206 := by
  have h := tts_get_prefix_anchored_range ['1', '0'] ['2', '0'] ",30-40".data
    "t" 0 1 1 0 none "python" "zh" 24000 1 "AAAAAAAA"
    (by decide) (by decide) (by decide) (by decide) (by decide) (Or.inl rfl)
  exact ⟨h.1.trans (by decide), h.2⟩

end TTSApi
